import Mathlib

/-!
Verification development for the OrganDonationSystem repository.

The development shallowly embeds the parts of the system the properties
talk about:
* the client-side blood-type compatibility helper
  (`src/client/index.js`, `checkBloodCompatibility`);
* the match-score record produced by the matching component (modelled
  from the spec, the `OrganMatching` contract source is not part of the
  provided sources);
* the `OrganOracle` contract (`src/contracts/Oracle.sol`): death
  verification requests, fulfillment, views, as a state machine;
* the `Donor` contract (`src/contracts/Donor.sol`): registration,
  status updates, death confirmation;
* the oracle service's `processRequest` flow (`oracle-service.js`).

Addresses are modelled as natural numbers, with `0` playing the role of
`address(0)`.  Solidity `require` failures revert the whole call, so
every state-mutating operation is embedded as a function returning
`Except String …`: on a failed `require` no state change happens at all.
-/

/-! ## Blood-type compatibility (src/client/index.js, checkBloodCompatibility) -/

/-- The `compatibilityMap` object literal of `checkBloodCompatibility`:
for each donor blood type the list of recipient blood types it may give
to.  `none` models an absent key (JS `undefined`). -/
def compatibilityMap (donorBlood : String) : Option (List String) :=
  if donorBlood = "O-" then some ["O-", "O+", "A-", "A+", "B-", "B+", "AB-", "AB+"]
  else if donorBlood = "O+" then some ["O+", "A+", "B+", "AB+"]
  else if donorBlood = "A-" then some ["A-", "A+", "AB-", "AB+"]
  else if donorBlood = "A+" then some ["A+", "AB+"]
  else if donorBlood = "B-" then some ["B-", "B+", "AB-", "AB+"]
  else if donorBlood = "B+" then some ["B+", "AB+"]
  else if donorBlood = "AB-" then some ["AB-", "AB+"]
  else if donorBlood = "AB+" then some ["AB+"]
  else none

/-- `checkBloodCompatibility` from `src/client/index.js`: universal donor
`O-`, universal recipient `AB+`, exact match, else lookup in
`compatibilityMap` (absent key yields `false`, as `?.includes || false`
does). -/
def checkBloodCompatibility (donorBlood recipientBlood : String) : Bool :=
  if donorBlood = "O-" then true
  else if recipientBlood = "AB+" then true
  else if donorBlood = recipientBlood then true
  else
    match compatibilityMap donorBlood with
    | some l => l.contains recipientBlood
    | none => false

/-- The eight ABO/Rh blood types. -/
def bloodTypes : List String :=
  ["O-", "O+", "A-", "A+", "B-", "B+", "AB-", "AB+"]

/-- ABO group of a blood type string (the string without its Rh sign). -/
def aboOf (bt : String) : String := String.mk bt.toList.dropLast

/-- Rh factor of a blood type string: `true` for Rh-positive. -/
def rhPos (bt : String) : Bool := bt.toList.getLast? = some '+'

/-- The standard ABO donation rule: group O gives to every group, every
group gives to itself and to AB. -/
def aboCanGive (d r : String) : Bool := d = "O" || d = r || r = "AB"

/-- The standard ABO/Rh compatibility table of the spec: ABO groups must
be compatible and an Rh-positive donor requires an Rh-positive
recipient. -/
def aboRhListed (d r : String) : Bool :=
  aboCanGive (aboOf d) (aboOf r) && (!(rhPos d) || rhPos r)

/-! ## MatchScore (modelled from the spec) -/

/-- The `MatchScore` record of the matching component, as displayed by
`src/client/index.js` (components out of 30/25/20/15/10, total out of
100). -/
structure MatchScore where
  totalScore : Nat
  bloodCompatibility : Nat
  urgencyScore : Nat
  waitingTimeScore : Nat
  geographicScore : Nat
  medicalScore : Nat
  isCompatible : Bool
deriving Repr, DecidableEq

/-- Modelled from the spec: the scoring operation `calculateMatchScore`
lives in the `OrganMatching` contract, whose source is not among the
provided files (only its client-side callers are).  Following §4.1 of
the spec with the default baseline weights 30/25/20/15/10: blood
compatibility contributes the full blood weight or 0; urgency is the
declared level 1–10 mapped linearly to [0, 25]; waiting time is
monotone in elapsed time and saturates at 20 after `maxWait`;
geographic is full weight for same region, else 0; medical is the full
weight 10 when organ quality is validated, and half (5) otherwise.  The
components sum to `totalScore` capped at 100, and `isCompatible` is
blood compatibility conjoined with the total reaching the minimum
threshold. -/
def calculateMatchScore (bloodCompatible : Bool) (urgencyLevel : Nat)
    (waitedTime maxWait : Nat) (sameRegion : Bool)
    (qualityValidated : Bool) (minimumScoreThreshold : Nat) : MatchScore :=
  let blood := if bloodCompatible then 30 else 0
  let urgency := min urgencyLevel 10 * 25 / 10
  let waiting := min (waitedTime * 20 / max maxWait 1) 20
  let geo := if sameRegion then 15 else 0
  let medical := if qualityValidated then 10 else 5
  let total := min (blood + urgency + waiting + geo + medical) 100
  { totalScore := total
    bloodCompatibility := blood
    urgencyScore := urgency
    waitingTimeScore := waiting
    geographicScore := geo
    medicalScore := medical
    isCompatible := bloodCompatible && decide (minimumScoreThreshold ≤ total) }

/-! ## OrganOracle (src/contracts/Oracle.sol) -/

/-- The `DeathVerificationRequest` struct of `Oracle.sol`.  Addresses
are naturals, `0` standing for `address(0)`. -/
structure DeathVerificationRequest where
  requestId : Nat
  donorAddress : Nat
  requester : Nat
  timestamp : Nat
  fulfilled : Bool
  isDeceased : Bool
  evidenceCID : String
  fulfilledTimestamp : Nat
  fulfilledBy : Nat
deriving Repr, DecidableEq

/-- Solidity's default value for a never-written mapping slot of type
`DeathVerificationRequest`. -/
def emptyRequest : DeathVerificationRequest :=
  { requestId := 0, donorAddress := 0, requester := 0, timestamp := 0
    fulfilled := false, isDeceased := false, evidenceCID := ""
    fulfilledTimestamp := 0, fulfilledBy := 0 }

/-- Storage of the `OrganOracle` contract.  The `usedSignatures` mapping
is keyed by the data the contract hashes: `(requestId, isDeceased,
evidenceCID)` (`block.chainid` and `address(this)` are constant for one
contract instance, so they are dropped from the key). -/
structure OracleState where
  owner : Nat
  authorizedOracles : Nat → Bool
  requestIdCounter : Nat
  requests : Nat → DeathVerificationRequest
  donorLatestRequest : Nat → Nat
  usedSignatures : Nat × Bool × String → Bool

/-- The `OrganOracle` constructor: the deployer owns the contract, the
request-id counter starts at 1, and the owner is an authorized
oracle. -/
def oracleInit (deployer : Nat) : OracleState :=
  { owner := deployer
    authorizedOracles := fun a => decide (a = deployer)
    requestIdCounter := 1
    requests := fun _ => emptyRequest
    donorLatestRequest := fun _ => 0
    usedSignatures := fun _ => false }

/-- `setOracleAuthorization` of `Oracle.sol`: only the owner may call
it, the oracle address must not be zero. -/
def setOracleAuthorization (s : OracleState) (sender oracleAddress : Nat)
    (authorized : Bool) : Except String OracleState :=
  if sender ≠ s.owner then .error "Only owner can call this function"
  else if oracleAddress = 0 then .error "Invalid oracle address"
  else .ok { s with authorizedOracles := fun a =>
    if a = oracleAddress then authorized else s.authorizedOracles a }

/-- `requestDeathVerification` of `Oracle.sol`: requires a nonzero donor
address, allocates the next request id, stores a fresh unfulfilled
request under it and points `donorLatestRequest[donor]` at it.  There
is no pending-request check. -/
def requestDeathVerification (s : OracleState) (sender donorAddress ts : Nat) :
    Except String (OracleState × Nat) :=
  if donorAddress = 0 then .error "Invalid donor address"
  else
    let requestId := s.requestIdCounter
    let req : DeathVerificationRequest :=
      { requestId := requestId, donorAddress := donorAddress, requester := sender
        timestamp := ts, fulfilled := false, isDeceased := false, evidenceCID := ""
        fulfilledTimestamp := 0, fulfilledBy := 0 }
    .ok ({ s with
            requestIdCounter := s.requestIdCounter + 1
            requests := fun i => if i = requestId then req else s.requests i
            donorLatestRequest := fun d =>
              if d = donorAddress then requestId else s.donorLatestRequest d },
         requestId)

/-- `fulfillDeathVerification` of `Oracle.sol`: the sender must be an
authorized oracle, the request must exist (`requestId != 0`) and must
not already be fulfilled; then the five fulfillment fields are set.
A failed `require` reverts, so the error cases leave the state
unchanged. -/
def fulfillDeathVerification (s : OracleState) (sender requestId : Nat)
    (isDeceased : Bool) (evidenceCID : String) (ts : Nat) :
    Except String OracleState :=
  if ¬ s.authorizedOracles sender then .error "Not an authorized oracle"
  else if (s.requests requestId).requestId = 0 then .error "Request does not exist"
  else if (s.requests requestId).fulfilled then .error "Request already fulfilled"
  else
    let req := { s.requests requestId with
      fulfilled := true, isDeceased := isDeceased, evidenceCID := evidenceCID
      fulfilledTimestamp := ts, fulfilledBy := sender }
    .ok { s with requests := fun i => if i = requestId then req else s.requests i }

/-- `fulfillWithSignature` of `Oracle.sol`.  `sigValid` models the
`recoverSigner(ethSignedHash, signature) == msg.sender` check on the
65-byte signature; the replay-protection key is the hashed data
`(requestId, isDeceased, evidenceCID)`.  Since a failed `require`
reverts the whole call, the `usedSignatures` write only survives when
every later check passes. -/
def fulfillWithSignature (s : OracleState) (sender requestId : Nat)
    (isDeceased : Bool) (evidenceCID : String) (sigValid : Bool) (ts : Nat) :
    Except String OracleState :=
  if ¬ s.authorizedOracles sender then .error "Not an authorized oracle"
  else if (s.requests requestId).requestId = 0 then .error "Request does not exist"
  else if (s.requests requestId).fulfilled then .error "Request already fulfilled"
  else if s.usedSignatures (requestId, isDeceased, evidenceCID) then
    .error "Signature already used"
  else if ¬ sigValid then .error "Invalid signature"
  else
    let req := { s.requests requestId with
      fulfilled := true, isDeceased := isDeceased, evidenceCID := evidenceCID
      fulfilledTimestamp := ts, fulfilledBy := sender }
    .ok { s with
          usedSignatures := fun m =>
            if m = (requestId, isDeceased, evidenceCID) then true else s.usedSignatures m
          requests := fun i => if i = requestId then req else s.requests i }

/-- `transferOwnership` of `Oracle.sol`. -/
def transferOwnership (s : OracleState) (sender newOwner : Nat) :
    Except String OracleState :=
  if sender ≠ s.owner then .error "Only owner can call this function"
  else if newOwner = 0 then .error "Invalid new owner"
  else .ok { s with owner := newOwner
                    authorizedOracles := fun a =>
                      if a = newOwner then true else s.authorizedOracles a }

/-- `getDeathVerification` of `Oracle.sol`: a view, total by
construction; `(false, false, "")` when the donor has no tracked
request, else the latest request's `(fulfilled, isDeceased,
evidenceCID)`. -/
def getDeathVerification (s : OracleState) (donorAddress : Nat) :
    Bool × Bool × String :=
  let latestRequestId := s.donorLatestRequest donorAddress
  if latestRequestId = 0 then (false, false, "")
  else ((s.requests latestRequestId).fulfilled,
        (s.requests latestRequestId).isDeceased,
        (s.requests latestRequestId).evidenceCID)

/-- `getRequest` of `Oracle.sol`. -/
def getRequest (s : OracleState) (requestId : Nat) : DeathVerificationRequest :=
  s.requests requestId

/-- `getPendingRequests` of `Oracle.sol`: both loops run `i` from `1`
to `requestIdCounter - 1` and keep the ids whose request is not
fulfilled, in ascending order. -/
def getPendingRequests (s : OracleState) : List Nat :=
  (List.range' 1 (s.requestIdCounter - 1)).filter
    (fun i => !(s.requests i).fulfilled)

/-- One externally triggered state transition of the `OrganOracle`
contract: any sender, any arguments, provided the call succeeds. -/
inductive OracleStep : OracleState → OracleState → Prop
  | setAuth {s s' : OracleState} {sender oracleAddress : Nat} {authorized : Bool}
      (h : setOracleAuthorization s sender oracleAddress authorized = .ok s') :
      OracleStep s s'
  | request {s s' : OracleState} {sender donorAddress ts rid : Nat}
      (h : requestDeathVerification s sender donorAddress ts = .ok (s', rid)) :
      OracleStep s s'
  | fulfill {s s' : OracleState} {sender requestId : Nat} {isDeceased : Bool}
      {evidenceCID : String} {ts : Nat}
      (h : fulfillDeathVerification s sender requestId isDeceased evidenceCID ts = .ok s') :
      OracleStep s s'
  | fulfillSig {s s' : OracleState} {sender requestId : Nat} {isDeceased : Bool}
      {evidenceCID : String} {sigValid : Bool} {ts : Nat}
      (h : fulfillWithSignature s sender requestId isDeceased evidenceCID sigValid ts = .ok s') :
      OracleStep s s'
  | transferOwn {s s' : OracleState} {sender newOwner : Nat}
      (h : transferOwnership s sender newOwner = .ok s') :
      OracleStep s s'

/-- States of the `OrganOracle` contract reachable from deployment by
any sequence of successful calls. -/
inductive OracleReachable : OracleState → Prop
  | init (deployer : Nat) : OracleReachable (oracleInit deployer)
  | step {s s' : OracleState} (hr : OracleReachable s) (hs : OracleStep s s') :
      OracleReachable s'

def oracleWF (s : OracleState) : Prop :=
  1 ≤ s.requestIdCounter ∧
  (∀ i, s.requestIdCounter ≤ i → s.requests i = emptyRequest) ∧
  s.requests 0 = emptyRequest ∧
  (∀ i, 1 ≤ i → i < s.requestIdCounter →
    (s.requests i).requestId = i ∧ (s.requests i).donorAddress ≠ 0) ∧
  (∀ d, s.donorLatestRequest d ≠ 0 →
    1 ≤ s.donorLatestRequest d ∧ s.donorLatestRequest d < s.requestIdCounter ∧
    (s.requests (s.donorLatestRequest d)).donorAddress = d) ∧
  (∀ d i, 1 ≤ i → i < s.requestIdCounter → (s.requests i).donorAddress = d →
    i ≤ s.donorLatestRequest d)

def sEx0 : OracleState := oracleInit 1

def reqEx1 : DeathVerificationRequest :=
  { requestId := 1, donorAddress := 5, requester := 1, timestamp := 10
    fulfilled := false, isDeceased := false, evidenceCID := ""
    fulfilledTimestamp := 0, fulfilledBy := 0 }

def sEx1 : OracleState :=
  { sEx0 with
    requestIdCounter := 2
    requests := fun i => if i = 1 then reqEx1 else sEx0.requests i
    donorLatestRequest := fun d => if d = 5 then 1 else sEx0.donorLatestRequest d }

def reqEx2 : DeathVerificationRequest :=
  { requestId := 2, donorAddress := 5, requester := 1, timestamp := 11
    fulfilled := false, isDeceased := false, evidenceCID := ""
    fulfilledTimestamp := 0, fulfilledBy := 0 }

def sEx2 : OracleState :=
  { sEx1 with
    requestIdCounter := 3
    requests := fun i => if i = 2 then reqEx2 else sEx1.requests i
    donorLatestRequest := fun d => if d = 5 then 2 else sEx1.donorLatestRequest d }

def sEx3 : OracleState :=
  { sEx2 with
    requests := fun i => if i = 2 then
        { sEx2.requests 2 with
          fulfilled := true, isDeceased := true, evidenceCID := "QmCID"
          fulfilledTimestamp := 20, fulfilledBy := 1 }
      else sEx2.requests i }

inductive DonorStatus
  | Active
  | Deactivated
  | Matched
  | Deceased
deriving Repr, DecidableEq

structure DonationPreferences where
  heart : Bool
  liver : Bool
  kidneys : Bool
deriving Repr, DecidableEq

structure DonorInfo where
  name : String
  age : Nat
  bloodType : String
  status : DonorStatus
  medicalHistoryHash : String
  preferences : DonationPreferences
  registrationDate : Nat
  deathVerificationRequestId : Nat
  deathTimestamp : Nat
  deathEvidenceCID : String
deriving Repr, DecidableEq

def emptyDonorInfo : DonorInfo :=
  { name := "", age := 0, bloodType := "", status := .Active
    medicalHistoryHash := "", preferences := ⟨false, false, false⟩
    registrationDate := 0, deathVerificationRequestId := 0
    deathTimestamp := 0, deathEvidenceCID := "" }

structure DonorState where
  owner : Nat
  oracleContract : Nat
  donors : Nat → DonorInfo
  isDonorRegistered : Nat → Bool
  donorList : List Nat
  authorizedContracts : Nat → Bool

def donorInit (deployer : Nat) : DonorState :=
  { owner := deployer, oracleContract := 0
    donors := fun _ => emptyDonorInfo
    isDonorRegistered := fun _ => false
    donorList := []
    authorizedContracts := fun _ => false }

def registerDonor (s : DonorState) (sender donorAddress : Nat) (name : String)
    (age : Nat) (bloodType medicalHistoryHash : String)
    (preferences : DonationPreferences) (ts : Nat) : Except String DonorState :=
  if sender ≠ s.owner then .error "Only owner can call this function"
  else if s.isDonorRegistered donorAddress then .error "Donor already registered"
  else if age < 18 then .error "Donor must be at least 18 years old"
  else if name = "" then .error "Name cannot be empty"
  else if bloodType = "" then .error "Blood type cannot be empty"
  else .ok { s with
    donors := fun a => if a = donorAddress then
        { name := name, age := age, bloodType := bloodType, status := .Active
          medicalHistoryHash := medicalHistoryHash, preferences := preferences
          registrationDate := ts, deathVerificationRequestId := 0
          deathTimestamp := 0, deathEvidenceCID := "" }
      else s.donors a
    isDonorRegistered := fun a => if a = donorAddress then true else s.isDonorRegistered a
    donorList := s.donorList ++ [donorAddress] }

def setOracleContract (s : DonorState) (sender oracleAddr : Nat) :
    Except String DonorState :=
  if sender ≠ s.owner then .error "Only owner can call this function"
  else if oracleAddr = 0 then .error "Invalid oracle address"
  else .ok { s with
    oracleContract := oracleAddr
    authorizedContracts := fun a => if a = oracleAddr then true else s.authorizedContracts a }

def setAuthorizedContract (s : DonorState) (sender contractAddress : Nat)
    (authorized : Bool) : Except String DonorState :=
  if sender ≠ s.owner then .error "Only owner can call this function"
  else .ok { s with
    authorizedContracts := fun a =>
      if a = contractAddress then authorized else s.authorizedContracts a }

def updateDonorStatus (s : DonorState) (sender donorAddress : Nat)
    (newStatus : DonorStatus) : Except String DonorState :=
  if ¬(sender = s.owner ∨ s.authorizedContracts sender = true) then .error "Not authorized"
  else if ¬ s.isDonorRegistered donorAddress then .error "Donor not registered"
  else .ok { s with
    donors := fun a => if a = donorAddress then
        { s.donors donorAddress with status := newStatus }
      else s.donors a }

def deactivateDonor (s : DonorState) (sender donorAddress : Nat) :
    Except String DonorState :=
  if sender ≠ s.owner then .error "Only owner can call this function"
  else if ¬ s.isDonorRegistered donorAddress then .error "Donor not registered"
  else .ok { s with
    donors := fun a => if a = donorAddress then
        { s.donors donorAddress with status := .Deactivated }
      else s.donors a }

def confirmDeath (s : DonorState) (sender donorAddress requestId : Nat)
    (evidenceCID : String) (ts : Nat) : Except String DonorState :=
  if ¬(sender = s.owner ∨ s.authorizedContracts sender = true) then .error "Not authorized"
  else if ¬ s.isDonorRegistered donorAddress then .error "Donor not registered"
  else if (s.donors donorAddress).deathVerificationRequestId ≠ requestId then
    .error "Invalid request ID"
  else .ok { s with
    donors := fun a => if a = donorAddress then
        { s.donors donorAddress with
          status := .Deceased, deathTimestamp := ts, deathEvidenceCID := evidenceCID }
      else s.donors a }

structure SysState where
  oracle : OracleState
  donor : DonorState
  donorContractAddr : Nat

def donorRequestDeathVerification (sys : SysState) (sender donorAddress ts : Nat) :
    Except String (SysState × Nat) :=
  let s := sys.donor
  if ¬(sender = s.owner ∨ s.authorizedContracts sender = true) then .error "Not authorized"
  else if ¬ s.isDonorRegistered donorAddress then .error "Donor not registered"
  else if s.oracleContract = 0 then .error "Oracle contract not set"
  else if (s.donors donorAddress).status ≠ .Active then .error "Donor must be active"
  else
    match requestDeathVerification sys.oracle sys.donorContractAddr donorAddress ts with
    | .error _ => .error "Oracle request failed"
    | .ok (o', requestId) =>
      let d' : DonorState :=
        { s with
          donors := fun a =>
            if a = donorAddress then
              { s.donors donorAddress with deathVerificationRequestId := requestId }
            else s.donors a }
      .ok ({ sys with oracle := o', donor := d' }, requestId)

inductive SysStep : SysState → SysState → Prop
  | oracleOp {sys : SysState} {o' : OracleState} (h : OracleStep sys.oracle o') :
      SysStep sys { sys with oracle := o' }
  | register {sys : SysState} {d' : DonorState} {sender donorAddress : Nat}
      {name : String} {age : Nat} {bloodType medicalHistoryHash : String}
      {preferences : DonationPreferences} {ts : Nat}
      (h : registerDonor sys.donor sender donorAddress name age bloodType
        medicalHistoryHash preferences ts = .ok d') :
      SysStep sys { sys with donor := d' }
  | setOracle {sys : SysState} {d' : DonorState} {sender oracleAddr : Nat}
      (h : setOracleContract sys.donor sender oracleAddr = .ok d') :
      SysStep sys { sys with donor := d' }
  | setAuthContract {sys : SysState} {d' : DonorState} {sender contractAddress : Nat}
      {authorized : Bool}
      (h : setAuthorizedContract sys.donor sender contractAddress authorized = .ok d') :
      SysStep sys { sys with donor := d' }
  | updateStatus {sys : SysState} {d' : DonorState} {sender donorAddress : Nat}
      {newStatus : DonorStatus}
      (h : updateDonorStatus sys.donor sender donorAddress newStatus = .ok d') :
      SysStep sys { sys with donor := d' }
  | deactivate {sys : SysState} {d' : DonorState} {sender donorAddress : Nat}
      (h : deactivateDonor sys.donor sender donorAddress = .ok d') :
      SysStep sys { sys with donor := d' }
  | confirm {sys : SysState} {d' : DonorState} {sender donorAddress requestId : Nat}
      {evidenceCID : String} {ts : Nat}
      (h : confirmDeath sys.donor sender donorAddress requestId evidenceCID ts = .ok d') :
      SysStep sys { sys with donor := d' }
  | requestVerify {sys sys' : SysState} {sender donorAddress ts rid : Nat}
      (h : donorRequestDeathVerification sys sender donorAddress ts = .ok (sys', rid)) :
      SysStep sys sys'

inductive SysReachable : SysState → Prop
  | init (oracleDeployer donorDeployer donorContractAddr : Nat) :
      SysReachable { oracle := oracleInit oracleDeployer
                     donor := donorInit donorDeployer
                     donorContractAddr := donorContractAddr }
  | step {sys sys' : SysState} (hr : SysReachable sys) (hs : SysStep sys sys') :
      SysReachable sys'

def processRequest (sys : SysState) (oracleAccount requestId donorAddress : Nat)
    (isDeceased : Bool) (evidenceCID : String) (ts : Nat) : SysState :=
  match fulfillDeathVerification sys.oracle oracleAccount requestId isDeceased evidenceCID ts with
  | .error _ => sys
  | .ok o' =>
    if isDeceased then
      match confirmDeath sys.donor oracleAccount donorAddress requestId evidenceCID ts with
      | .error _ => { sys with oracle := o' }
      | .ok d' => { sys with oracle := o', donor := d' }
    else { sys with oracle := o' }

def sysEx0 : SysState :=
  { oracle := oracleInit 1, donor := donorInit 1, donorContractAddr := 7 }

def dEx1 : DonorState :=
  { donorInit 1 with
    oracleContract := 9
    authorizedContracts := fun a => if a = 9 then true else (donorInit 1).authorizedContracts a }

def sysEx1 : SysState := { sysEx0 with donor := dEx1 }

def donorRecEx : DonorInfo :=
  { name := "Bob", age := 30, bloodType := "O+", status := .Active
    medicalHistoryHash := "Qm", preferences := ⟨true, true, true⟩
    registrationDate := 10, deathVerificationRequestId := 0
    deathTimestamp := 0, deathEvidenceCID := "" }

def dEx2 : DonorState :=
  { dEx1 with
    donors := fun a => if a = 5 then donorRecEx else dEx1.donors a
    isDonorRegistered := fun a => if a = 5 then true else dEx1.isDonorRegistered a
    donorList := dEx1.donorList ++ [5] }

def sysEx2 : SysState := { sysEx1 with donor := dEx2 }

def oReqEx : DeathVerificationRequest :=
  { requestId := 1, donorAddress := 5, requester := 7, timestamp := 11
    fulfilled := false, isDeceased := false, evidenceCID := ""
    fulfilledTimestamp := 0, fulfilledBy := 0 }

def oEx1 : OracleState :=
  { sysEx2.oracle with
    requestIdCounter := 2
    requests := fun i => if i = 1 then oReqEx else sysEx2.oracle.requests i
    donorLatestRequest := fun d => if d = 5 then 1 else sysEx2.oracle.donorLatestRequest d }

def dEx3 : DonorState :=
  { dEx2 with
    donors := fun a =>
      if a = 5 then { dEx2.donors 5 with deathVerificationRequestId := 1 }
      else dEx2.donors a }

def sysEx3 : SysState := { sysEx2 with oracle := oEx1, donor := dEx3 }

def dEx4 : DonorState :=
  { dEx3 with
    donors := fun a =>
      if a = 5 then
        { dEx3.donors 5 with
          status := .Deceased, deathTimestamp := 12, deathEvidenceCID := "QmDC" }
      else dEx3.donors a }

def sysEx4 : SysState := { sysEx3 with donor := dEx4 }

/-! ## Properties -/

theorem setOracleAuthorization_ok {s s' : OracleState} {sender oa : Nat} {auth : Bool}
    (h : setOracleAuthorization s sender oa auth = .ok s') :
    s' = { s with authorizedOracles := fun a =>
      if a = oa then auth else s.authorizedOracles a } := by
  unfold setOracleAuthorization at h
  split at h
  · cases h
  · split at h
    · cases h
    · injection h with h
      exact h.symm

theorem transferOwnership_ok {s s' : OracleState} {sender newOwner : Nat}
    (h : transferOwnership s sender newOwner = .ok s') :
    s' = { s with owner := newOwner
                  authorizedOracles := fun a =>
                    if a = newOwner then true else s.authorizedOracles a } := by
  unfold transferOwnership at h
  split at h
  · cases h
  · split at h
    · cases h
    · injection h with h
      exact h.symm

theorem requestDeathVerification_ok {s s' : OracleState} {sender donorAddress ts rid : Nat}
    (h : requestDeathVerification s sender donorAddress ts = .ok (s', rid)) :
    donorAddress ≠ 0 ∧ rid = s.requestIdCounter ∧
    s' = { s with
      requestIdCounter := s.requestIdCounter + 1
      requests := fun i => if i = s.requestIdCounter then
          { requestId := s.requestIdCounter, donorAddress := donorAddress
            requester := sender, timestamp := ts, fulfilled := false
            isDeceased := false, evidenceCID := "", fulfilledTimestamp := 0
            fulfilledBy := 0 }
        else s.requests i
      donorLatestRequest := fun d =>
        if d = donorAddress then s.requestIdCounter else s.donorLatestRequest d } := by
  unfold requestDeathVerification at h
  split at h
  · cases h
  · next hd =>
    injection h with h
    injection h with h1 h2
    exact ⟨hd, h2.symm, h1.symm⟩

theorem fulfillDeathVerification_ok {s s' : OracleState} {sender requestId : Nat}
    {isDeceased : Bool} {evidenceCID : String} {ts : Nat}
    (h : fulfillDeathVerification s sender requestId isDeceased evidenceCID ts = .ok s') :
    s.authorizedOracles sender = true ∧
    (s.requests requestId).requestId ≠ 0 ∧
    (s.requests requestId).fulfilled = false ∧
    s' = { s with requests := fun i => if i = requestId then
        { s.requests requestId with
          fulfilled := true, isDeceased := isDeceased, evidenceCID := evidenceCID
          fulfilledTimestamp := ts, fulfilledBy := sender }
      else s.requests i } := by
  unfold fulfillDeathVerification at h
  split at h
  · cases h
  · next hauth =>
    split at h
    · cases h
    · next hex =>
      split at h
      · cases h
      · next hful =>
        injection h with h
        exact ⟨by simpa using hauth, hex, by simpa using hful, h.symm⟩

theorem fulfillWithSignature_ok {s s' : OracleState} {sender requestId : Nat}
    {isDeceased : Bool} {evidenceCID : String} {sigValid : Bool} {ts : Nat}
    (h : fulfillWithSignature s sender requestId isDeceased evidenceCID sigValid ts = .ok s') :
    s.authorizedOracles sender = true ∧
    (s.requests requestId).requestId ≠ 0 ∧
    (s.requests requestId).fulfilled = false ∧
    s' = { s with
      usedSignatures := fun m =>
        if m = (requestId, isDeceased, evidenceCID) then true else s.usedSignatures m
      requests := fun i => if i = requestId then
        { s.requests requestId with
          fulfilled := true, isDeceased := isDeceased, evidenceCID := evidenceCID
          fulfilledTimestamp := ts, fulfilledBy := sender }
      else s.requests i } := by
  unfold fulfillWithSignature at h
  split at h
  · cases h
  · next hauth =>
    split at h
    · cases h
    · next hex =>
      split at h
      · cases h
      · next hful =>
        split at h
        · cases h
        · split at h
          · cases h
          · injection h with h
            exact ⟨by simpa using hauth, hex, by simpa using hful, h.symm⟩

theorem oracleWF_fulfillShape {s : OracleState} (hwf : oracleWF s) {rid : Nat}
    (hex : (s.requests rid).requestId ≠ 0) (dec : Bool) (cid : String) (ts sender : Nat)
    {s' : OracleState}
    (hc : s'.requestIdCounter = s.requestIdCounter)
    (hd : s'.donorLatestRequest = s.donorLatestRequest)
    (hreq : s'.requests = fun i => if i = rid then
        { s.requests rid with
          fulfilled := true, isDeceased := dec, evidenceCID := cid
          fulfilledTimestamp := ts, fulfilledBy := sender } else s.requests i) :
    oracleWF s' := by
  obtain ⟨h1, h2, h3, h4, h5, h6⟩ := hwf
  have hridne : rid ≠ 0 := by
    intro hrid
    rw [hrid, h3] at hex
    exact hex rfl
  have hridlt : rid < s.requestIdCounter := by
    by_contra hge
    rw [h2 rid (by omega)] at hex
    exact hex rfl
  have hda : ∀ i, (s'.requests i).donorAddress = (s.requests i).donorAddress := by
    intro i
    rw [hreq]
    by_cases hi : i = rid <;> simp [hi]
  have hid : ∀ i, (s'.requests i).requestId = (s.requests i).requestId := by
    intro i
    rw [hreq]
    by_cases hi : i = rid <;> simp [hi]
  refine ⟨by omega, ?_, ?_, ?_, ?_, ?_⟩
  · intro i hi
    rw [hreq]
    rw [hc] at hi
    have : i ≠ rid := by omega
    simp only [this, if_false]
    exact h2 i hi
  · rw [hreq]
    simp only [Ne.symm hridne, if_false]
    exact h3
  · intro i hi1 hi2
    rw [hc] at hi2
    rw [hid, hda]
    exact h4 i hi1 hi2
  · intro d hdne
    rw [hd] at hdne ⊢
    rw [hc, hda]
    exact h5 d hdne
  · intro d i hi1 hi2 hdon
    rw [hc] at hi2
    rw [hda] at hdon
    rw [hd]
    exact h6 d i hi1 hi2 hdon

theorem oracleReachable_wf {s : OracleState} (h : OracleReachable s) : oracleWF s := by
  induction h with
  | init deployer =>
      refine ⟨le_refl 1, fun i _ => rfl, rfl, ?_, ?_, ?_⟩
      · intro i hi1 hi2
        replace hi2 : i < 1 := hi2
        omega
      · intro d hd
        exact absurd rfl hd
      · intro d i hi1 hi2
        replace hi2 : i < 1 := hi2
        omega
  | @step t u hr hstep ih =>
      obtain ⟨h1, h2, h3, h4, h5, h6⟩ := ih
      cases hstep with
      | setAuth h =>
          obtain rfl := setOracleAuthorization_ok h
          exact ⟨h1, h2, h3, h4, h5, h6⟩
      | transferOwn h =>
          obtain rfl := transferOwnership_ok h
          exact ⟨h1, h2, h3, h4, h5, h6⟩
      | fulfill h =>
          obtain ⟨hauth, hex, hful, rfl⟩ := fulfillDeathVerification_ok h
          exact oracleWF_fulfillShape ⟨h1, h2, h3, h4, h5, h6⟩ hex _ _ _ _ rfl rfl rfl
      | fulfillSig h =>
          obtain ⟨hauth, hex, hful, rfl⟩ := fulfillWithSignature_ok h
          exact oracleWF_fulfillShape ⟨h1, h2, h3, h4, h5, h6⟩ hex _ _ _ _ rfl rfl rfl
      | @request sender da ts rid h =>
          obtain ⟨hdn, hrid, rfl⟩ := requestDeathVerification_ok h
          refine ⟨?_, ?_, ?_, ?_, ?_, ?_⟩
          · show 1 ≤ t.requestIdCounter + 1
            omega
          · intro i hi
            replace hi : t.requestIdCounter + 1 ≤ i := hi
            show (if i = t.requestIdCounter then _ else t.requests i) = emptyRequest
            rw [if_neg (by omega : i ≠ t.requestIdCounter)]
            exact h2 i (by omega)
          · show (if 0 = t.requestIdCounter then _ else t.requests 0) = emptyRequest
            rw [if_neg (by omega : 0 ≠ t.requestIdCounter)]
            exact h3
          · intro i hi1 hi2
            replace hi2 : i < t.requestIdCounter + 1 := hi2
            show (if i = t.requestIdCounter then _ else t.requests i).requestId = i ∧
              (if i = t.requestIdCounter then _ else t.requests i).donorAddress ≠ 0
            by_cases hi : i = t.requestIdCounter
            · rw [if_pos hi]
              exact ⟨hi.symm, hdn⟩
            · rw [if_neg hi]
              exact h4 i hi1 (by omega)
          · intro d hdne
            dsimp only at hdne ⊢
            by_cases hd : d = da
            · rw [if_pos hd] at hdne ⊢
              rw [if_pos rfl]
              exact ⟨h1, by omega, hd.symm⟩
            · rw [if_neg hd] at hdne ⊢
              obtain ⟨g1, g2, g3⟩ := h5 d hdne
              refine ⟨g1, by omega, ?_⟩
              rw [if_neg (by omega : t.donorLatestRequest d ≠ t.requestIdCounter)]
              exact g3
          · intro d i hi1 hi2 hdon
            replace hi2 : i < t.requestIdCounter + 1 := hi2
            dsimp only at hdon ⊢
            by_cases hi : i = t.requestIdCounter
            · rw [if_pos hi] at hdon
              dsimp only at hdon
              subst hdon
              rw [if_pos rfl]
              omega
            · rw [if_neg hi] at hdon
              by_cases hd : d = da
              · rw [if_pos hd]
                omega
              · rw [if_neg hd]
                exact h6 d i hi1 (by omega) hdon

theorem sEx1_ok : requestDeathVerification sEx0 1 5 10 = .ok (sEx1, 1) := rfl

theorem sEx2_ok : requestDeathVerification sEx1 1 5 11 = .ok (sEx2, 2) := rfl

theorem sEx3_ok : fulfillDeathVerification sEx2 1 2 true "QmCID" 20 = .ok sEx3 := rfl

theorem sEx1_reachable : OracleReachable sEx1 :=
  .step (.init 1) (.request sEx1_ok)

theorem sEx2_reachable : OracleReachable sEx2 :=
  .step sEx1_reachable (.request sEx2_ok)

theorem sEx3_reachable : OracleReachable sEx3 :=
  .step sEx2_reachable (.fulfill sEx3_ok)

/-- C1, counterexample: in the reachable state `sEx1` donor `5` has an
unfulfilled request (id 1), yet a second `requestDeathVerification` for
the same donor does not fail with AlreadyPending: it succeeds and
creates a new request (id 2), advancing the counter to 3. -/
theorem C1_counterexample :
    OracleReachable sEx1 ∧
    (sEx1.requests 1).donorAddress = 5 ∧ (sEx1.requests 1).fulfilled = false ∧
    1 < sEx1.requestIdCounter ∧
    requestDeathVerification sEx1 1 5 11 = .ok (sEx2, 2) ∧
    sEx2.requestIdCounter = 3 ∧
    (sEx2.requests 2).donorAddress = 5 ∧ (sEx2.requests 2).fulfilled = false :=
  ⟨sEx1_reachable, by decide, by decide, by decide, sEx2_ok,
   by decide, by decide, by decide⟩

/-- C1, amended: in any state in which an unfulfilled death-verification
request `j` exists for donor `d`, a further call to
`requestDeathVerification` for `d` succeeds, creates a fresh unfulfilled
request under the next id, leaves request `j` unchanged and re-points
`donorLatestRequest[d]` at the new request. -/
theorem C1_theorem (s : OracleState) (sender d ts j : Nat)
    (hj1 : 1 ≤ j) (hj2 : j < s.requestIdCounter)
    (hjd : (s.requests j).donorAddress = d) (hju : (s.requests j).fulfilled = false)
    (hd : d ≠ 0) :
    ∃ s', requestDeathVerification s sender d ts = .ok (s', s.requestIdCounter) ∧
      s'.requestIdCounter = s.requestIdCounter + 1 ∧
      (s'.requests s.requestIdCounter).donorAddress = d ∧
      (s'.requests s.requestIdCounter).fulfilled = false ∧
      s'.requests j = s.requests j ∧
      s'.donorLatestRequest d = s.requestIdCounter := by
  refine ⟨{ s with
      requestIdCounter := s.requestIdCounter + 1
      requests := fun i => if i = s.requestIdCounter then
          { requestId := s.requestIdCounter, donorAddress := d, requester := sender
            timestamp := ts, fulfilled := false, isDeceased := false, evidenceCID := ""
            fulfilledTimestamp := 0, fulfilledBy := 0 }
        else s.requests i
      donorLatestRequest := fun d2 =>
        if d2 = d then s.requestIdCounter else s.donorLatestRequest d2 },
    ?_, rfl, ?_, ?_, ?_, ?_⟩
  · unfold requestDeathVerification
    rw [if_neg hd]
  · dsimp only
    rw [if_pos rfl]
  · dsimp only
    rw [if_pos rfl]
  · dsimp only
    rw [if_neg (by omega : j ≠ s.requestIdCounter)]
  · dsimp only
    rw [if_pos rfl]

/-- Witness for C1: the amended theorem applied to the concrete state
`sEx1` with pending request 1 for donor 5. -/
theorem C1_theorem_witness :
    ∃ s', requestDeathVerification sEx1 1 5 11 = .ok (s', sEx1.requestIdCounter) ∧
      s'.requestIdCounter = sEx1.requestIdCounter + 1 ∧
      (s'.requests sEx1.requestIdCounter).donorAddress = 5 ∧
      (s'.requests sEx1.requestIdCounter).fulfilled = false ∧
      s'.requests 1 = sEx1.requests 1 ∧
      s'.donorLatestRequest 5 = sEx1.requestIdCounter :=
  C1_theorem sEx1 1 5 11 1 (by decide) (by decide) (by decide) (by decide) (by decide)

/-- C2, counterexample: the reachable state `sEx2` (two consecutive
`requestDeathVerification` calls for donor 5) holds two distinct
unfulfilled requests (ids 1 and 2) for the same donor address 5. -/
theorem C2_counterexample :
    OracleReachable sEx2 ∧ (1 : Nat) ≠ 2 ∧
    1 < sEx2.requestIdCounter ∧ 2 < sEx2.requestIdCounter ∧
    (sEx2.requests 1).donorAddress = 5 ∧ (sEx2.requests 1).fulfilled = false ∧
    (sEx2.requests 2).donorAddress = 5 ∧ (sEx2.requests 2).fulfilled = false :=
  ⟨sEx2_reachable, by decide, by decide, by decide, by decide, by decide,
   by decide, by decide⟩

/-- C2, amended: in every reachable `OrganOracle` state, each donor has
at most one tracked request: `donorLatestRequest[d]`, when nonzero,
names a stored request of donor `d` and dominates the id of every
request belonging to `d`; several unfulfilled requests for the same
donor may however coexist in the `requests` mapping. -/
theorem C2_theorem (s : OracleState) (hs : OracleReachable s) (d : Nat) :
    (s.donorLatestRequest d ≠ 0 →
      1 ≤ s.donorLatestRequest d ∧ s.donorLatestRequest d < s.requestIdCounter ∧
      (s.requests (s.donorLatestRequest d)).donorAddress = d) ∧
    (∀ i, 1 ≤ i → i < s.requestIdCounter → (s.requests i).donorAddress = d →
      i ≤ s.donorLatestRequest d) := by
  obtain ⟨h1, h2, h3, h4, h5, h6⟩ := oracleReachable_wf hs
  exact ⟨h5 d, fun i a b c => h6 d i a b c⟩

/-- Witness for C2: the amended theorem applied to the reachable state
`sEx2` and donor 5. -/
theorem C2_theorem_witness :
    1 ≤ sEx2.donorLatestRequest 5 ∧ sEx2.donorLatestRequest 5 < sEx2.requestIdCounter ∧
    (sEx2.requests (sEx2.donorLatestRequest 5)).donorAddress = 5 :=
  (C2_theorem sEx2 sEx2_reachable 5).1 (by decide)

/-- C4: once a request is fulfilled it is immutable: both fulfillment
operations fail on it, and no contract operation (any `OracleStep`)
changes any field of a fulfilled stored request. -/
theorem C4_theorem (s : OracleState) (hs : OracleReachable s) (i : Nat)
    (hful : (s.requests i).fulfilled = true) :
    (∀ sender dec cid ts s2, fulfillDeathVerification s sender i dec cid ts ≠ .ok s2) ∧
    (∀ sender dec cid sv ts s2, fulfillWithSignature s sender i dec cid sv ts ≠ .ok s2) ∧
    (∀ s', OracleStep s s' → s'.requests i = s.requests i) := by
  obtain ⟨h1, h2, h3, h4, h5, h6⟩ := oracleReachable_wf hs
  refine ⟨?_, ?_, ?_⟩
  · intro sender dec cid ts s2 hok
    obtain ⟨_, _, hf, _⟩ := fulfillDeathVerification_ok hok
    rw [hful] at hf
    cases hf
  · intro sender dec cid sv ts s2 hok
    obtain ⟨_, _, hf, _⟩ := fulfillWithSignature_ok hok
    rw [hful] at hf
    cases hf
  · intro s' hstep
    cases hstep with
    | setAuth h =>
        obtain rfl := setOracleAuthorization_ok h
        rfl
    | transferOwn h =>
        obtain rfl := transferOwnership_ok h
        rfl
    | @request sender da ts rid h =>
        obtain ⟨hdn, hrid, rfl⟩ := requestDeathVerification_ok h
        have hine : i ≠ s.requestIdCounter := by
          intro hie
          rw [hie, h2 s.requestIdCounter (le_refl _)] at hful
          cases hful
        dsimp only
        rw [if_neg hine]
    | @fulfill sender rid dec cid ts h =>
        obtain ⟨_, _, hf, rfl⟩ := fulfillDeathVerification_ok h
        have hine : i ≠ rid := by
          intro hie
          rw [hie, hf] at hful
          cases hful
        dsimp only
        rw [if_neg hine]
    | @fulfillSig sender rid dec cid sv ts h =>
        obtain ⟨_, _, hf, rfl⟩ := fulfillWithSignature_ok h
        have hine : i ≠ rid := by
          intro hie
          rw [hie, hf] at hful
          cases hful
        dsimp only
        rw [if_neg hine]

/-- Witness for C4: re-fulfilling the already fulfilled request 2 of the
reachable state `sEx3` fails. -/
theorem C4_theorem_witness :
    fulfillDeathVerification sEx3 1 2 true "QmCID" 21 ≠ .ok sEx3 :=
  (C4_theorem sEx3 sEx3_reachable 2 (by decide)).1 1 true "QmCID" 21 sEx3

/-- C6: `getDeathVerification` is a total view (it returns a triple for
every donor address by construction): it yields `(false, false, "")`
exactly when no request exists for the donor, and otherwise the
`(fulfilled, isDeceased, evidenceCID)` of the donor's latest request —
a pending request gives `fulfilled = false` rather than an error. -/
theorem C6_theorem (s : OracleState) (hs : OracleReachable s) (d : Nat) :
    ((∀ i, 1 ≤ i → i < s.requestIdCounter → (s.requests i).donorAddress ≠ d) →
      getDeathVerification s d = (false, false, "")) ∧
    (s.donorLatestRequest d ≠ 0 →
      getDeathVerification s d =
        ((s.requests (s.donorLatestRequest d)).fulfilled,
         (s.requests (s.donorLatestRequest d)).isDeceased,
         (s.requests (s.donorLatestRequest d)).evidenceCID) ∧
      (s.requests (s.donorLatestRequest d)).donorAddress = d ∧
      (∀ i, 1 ≤ i → i < s.requestIdCounter → (s.requests i).donorAddress = d →
        i ≤ s.donorLatestRequest d)) ∧
    (s.donorLatestRequest d = 0 ↔
      ∀ i, 1 ≤ i → i < s.requestIdCounter → (s.requests i).donorAddress ≠ d) := by
  obtain ⟨h1, h2, h3, h4, h5, h6⟩ := oracleReachable_wf hs
  have hzero : (∀ i, 1 ≤ i → i < s.requestIdCounter → (s.requests i).donorAddress ≠ d) →
      s.donorLatestRequest d = 0 := by
    intro hno
    by_contra hne
    obtain ⟨g1, g2, g3⟩ := h5 d hne
    exact hno _ g1 g2 g3
  refine ⟨?_, ?_, ?_, ?_⟩
  · intro hno
    unfold getDeathVerification
    rw [hzero hno]
    rfl
  · intro hne
    refine ⟨?_, (h5 d hne).2.2, fun i a b c => h6 d i a b c⟩
    unfold getDeathVerification
    dsimp only
    rw [if_neg hne]
  · intro hdz i hi1 hi2 hid
    have := h6 d i hi1 hi2 hid
    omega
  · exact hzero

/-- Witness for C6: the status view on the reachable state `sEx2` for
donor 5 returns the fields of the donor's latest request. -/
theorem C6_theorem_witness :
    getDeathVerification sEx2 5 =
      ((sEx2.requests (sEx2.donorLatestRequest 5)).fulfilled,
       (sEx2.requests (sEx2.donorLatestRequest 5)).isDeceased,
       (sEx2.requests (sEx2.donorLatestRequest 5)).evidenceCID) :=
  ((C6_theorem sEx2 sEx2_reachable 5).2.1 (by decide)).1

/-- C8: `getPendingRequests` returns exactly the ids `i` with
`1 ≤ i < requestIdCounter` whose request is unfulfilled, in strictly
ascending order, without duplicates, and every returned id names an
existing stored request (`requestId = i`). -/
theorem C8_theorem (s : OracleState) (hs : OracleReachable s) :
    List.Sorted (· < ·) (getPendingRequests s) ∧
    (getPendingRequests s).Nodup ∧
    (∀ i, i ∈ getPendingRequests s ↔
      1 ≤ i ∧ i < s.requestIdCounter ∧ (s.requests i).fulfilled = false) ∧
    (∀ i, i ∈ getPendingRequests s → (s.requests i).requestId = i) := by
  obtain ⟨h1, h2, h3, h4, h5, h6⟩ := oracleReachable_wf hs
  have hsorted : List.Sorted (· < ·) (getPendingRequests s) := by
    unfold getPendingRequests
    exact (List.pairwise_lt_range' 1 _).filter _
  have hmem : ∀ i, i ∈ getPendingRequests s ↔
      1 ≤ i ∧ i < s.requestIdCounter ∧ (s.requests i).fulfilled = false := by
    intro i
    unfold getPendingRequests
    rw [List.mem_filter, List.mem_range'_1]
    constructor
    · rintro ⟨⟨hl, hr⟩, hp⟩
      exact ⟨hl, by omega, by simpa using hp⟩
    · rintro ⟨hl, hr, hp⟩
      exact ⟨⟨hl, by omega⟩, by simpa using hp⟩
  refine ⟨hsorted, hsorted.nodup, hmem, ?_⟩
  intro i hi
  obtain ⟨g1, g2, g3⟩ := (hmem i).mp hi
  exact (h4 i g1 g2).1

/-- Witness for C8: both pending ids 1 and 2 of the reachable state
`sEx2` are returned. -/
theorem C8_theorem_witness : 1 ∈ getPendingRequests sEx2 ∧ 2 ∈ getPendingRequests sEx2 :=
  ⟨((C8_theorem sEx2 sEx2_reachable).2.2.1 1).mpr ⟨by decide, by decide, by decide⟩,
   ((C8_theorem sEx2 sEx2_reachable).2.2.1 2).mpr ⟨by decide, by decide, by decide⟩⟩

/-- C9: a successful `fulfillDeathVerification` changes only the five
fulfillment fields of the targeted request; its identity fields, every
other stored request, `donorLatestRequest`, `requestIdCounter` and the
remaining contract storage are unchanged. -/
theorem C9_theorem (s s' : OracleState) (sender requestId : Nat) (dec : Bool)
    (cid : String) (ts : Nat)
    (h : fulfillDeathVerification s sender requestId dec cid ts = .ok s') :
    (s'.requests requestId).requestId = (s.requests requestId).requestId ∧
    (s'.requests requestId).donorAddress = (s.requests requestId).donorAddress ∧
    (s'.requests requestId).requester = (s.requests requestId).requester ∧
    (s'.requests requestId).timestamp = (s.requests requestId).timestamp ∧
    (s'.requests requestId).fulfilled = true ∧
    (s'.requests requestId).isDeceased = dec ∧
    (s'.requests requestId).evidenceCID = cid ∧
    (s'.requests requestId).fulfilledTimestamp = ts ∧
    (s'.requests requestId).fulfilledBy = sender ∧
    (∀ j, j ≠ requestId → s'.requests j = s.requests j) ∧
    s'.donorLatestRequest = s.donorLatestRequest ∧
    s'.requestIdCounter = s.requestIdCounter ∧
    s'.owner = s.owner ∧
    s'.authorizedOracles = s.authorizedOracles ∧
    s'.usedSignatures = s.usedSignatures := by
  obtain ⟨hauth, hex, hful, rfl⟩ := fulfillDeathVerification_ok h
  refine ⟨by simp, by simp, by simp, by simp, by simp, by simp, by simp, by simp,
          by simp, ?_, rfl, rfl, rfl, rfl, rfl⟩
  intro j hj
  dsimp only
  rw [if_neg hj]

/-- Witness for C9: the concrete fulfillment step `sEx2 → sEx3`. -/
theorem C9_theorem_witness :
    (sEx3.requests 2).donorAddress = (sEx2.requests 2).donorAddress ∧
    (sEx3.requests 2).fulfilled = true ∧
    sEx3.requests 1 = sEx2.requests 1 ∧
    sEx3.requestIdCounter = sEx2.requestIdCounter :=
  have h := C9_theorem sEx2 sEx3 1 2 true "QmCID" 20 sEx3_ok
  ⟨h.2.1, h.2.2.2.2.1, h.2.2.2.2.2.2.2.2.2.1 1 (by decide),
   h.2.2.2.2.2.2.2.2.2.2.2.1⟩

/-- C10: `registerDonor` fails when the donor is already registered,
when `age < 18`, when the name is empty, or when the blood type is
empty; on success the donor's status is Active, the donor is marked
registered, and the donor list grows by exactly one. -/
theorem C10_theorem (s : DonorState) (sender donorAddress : Nat) (name : String)
    (age : Nat) (bloodType medicalHistoryHash : String)
    (preferences : DonationPreferences) (ts : Nat) :
    (s.isDonorRegistered donorAddress = true →
      ∀ s', registerDonor s sender donorAddress name age bloodType medicalHistoryHash
        preferences ts ≠ .ok s') ∧
    (age < 18 →
      ∀ s', registerDonor s sender donorAddress name age bloodType medicalHistoryHash
        preferences ts ≠ .ok s') ∧
    (name = "" →
      ∀ s', registerDonor s sender donorAddress name age bloodType medicalHistoryHash
        preferences ts ≠ .ok s') ∧
    (bloodType = "" →
      ∀ s', registerDonor s sender donorAddress name age bloodType medicalHistoryHash
        preferences ts ≠ .ok s') ∧
    (∀ s', registerDonor s sender donorAddress name age bloodType medicalHistoryHash
        preferences ts = .ok s' →
      (s'.donors donorAddress).status = .Active ∧
      s'.isDonorRegistered donorAddress = true ∧
      s'.donorList.length = s.donorList.length + 1) := by
  unfold registerDonor
  refine ⟨?_, ?_, ?_, ?_, ?_⟩
  · intro hreg s' hok
    rw [if_pos hreg] at hok
    repeat' split at hok
    all_goals cases hok
  · intro hage s' hok
    rw [if_pos hage] at hok
    repeat' split at hok
    all_goals cases hok
  · intro hname s' hok
    rw [if_pos hname] at hok
    repeat' split at hok
    all_goals cases hok
  · intro hbt s' hok
    rw [if_pos hbt] at hok
    repeat' split at hok
    all_goals cases hok
  · intro s' hok
    repeat' split at hok
    all_goals try cases hok
    refine ⟨by simp, by simp, by simp⟩

/-- Witness for C10: registering a 17-year-old fails. -/
theorem C10_theorem_witness :
    ∀ s', registerDonor (donorInit 1) 1 5 "Alice" 17 "O+" "Qm" ⟨true, true, true⟩ 10 ≠ .ok s' :=
  (C10_theorem (donorInit 1) 1 5 "Alice" 17 "O+" "Qm" ⟨true, true, true⟩ 10).2.1 (by decide)

theorem confirmDeath_ok {s s' : DonorState} {sender donorAddress requestId : Nat}
    {evidenceCID : String} {ts : Nat}
    (h : confirmDeath s sender donorAddress requestId evidenceCID ts = .ok s') :
    s' = { s with donors := fun a =>
      if a = donorAddress then
        { s.donors donorAddress with
          status := .Deceased, deathTimestamp := ts, deathEvidenceCID := evidenceCID }
      else s.donors a } := by
  unfold confirmDeath at h
  split at h
  · cases h
  · split at h
    · cases h
    · split at h
      · cases h
      · injection h with h
        exact h.symm

theorem dEx1_ok : setOracleContract sysEx0.donor 1 9 = .ok dEx1 := rfl

theorem dEx2_ok :
    registerDonor sysEx1.donor 1 5 "Bob" 30 "O+" "Qm" ⟨true, true, true⟩ 10 = .ok dEx2 := rfl

theorem sysEx3_ok : donorRequestDeathVerification sysEx2 1 5 11 = .ok (sysEx3, 1) := rfl

theorem dEx4_ok : confirmDeath sysEx3.donor 1 5 1 "QmDC" 12 = .ok dEx4 := rfl

theorem sysEx1_reach : SysReachable sysEx1 :=
  .step (.init 1 1 7) (.setOracle dEx1_ok)

theorem sysEx2_reach : SysReachable sysEx2 :=
  .step sysEx1_reach (.register dEx2_ok)

theorem sysEx3_reach : SysReachable sysEx3 :=
  .step sysEx2_reach (.requestVerify sysEx3_ok)

theorem sysEx4_reach : SysReachable sysEx4 :=
  .step sysEx3_reach (.confirm dEx4_ok)

/-- C3, counterexample: the reachable combined state `sysEx4` (deploy,
configure, register donor 5, request verification, then `confirmDeath`
by the owner) marks donor 5 Deceased while their verification request
(id 1) is still unfulfilled: `confirmDeath` checks only authorization
and the stored request id, not oracle fulfillment. -/
theorem C3_counterexample :
    SysReachable sysEx4 ∧
    sysEx4.donor.isDonorRegistered 5 = true ∧
    (sysEx4.donor.donors 5).status = DonorStatus.Deceased ∧
    (sysEx4.donor.donors 5).deathVerificationRequestId = 1 ∧
    (sysEx4.oracle.requests 1).donorAddress = 5 ∧
    (sysEx4.oracle.requests 1).fulfilled = false :=
  ⟨sysEx4_reach, by decide, by decide, by decide, by decide, by decide⟩

/-- C3, amended: in the oracle service's `processRequest` flow, a donor
who was not Deceased becomes Deceased only when the verification result
was `isDeceased = true` and the corresponding request has been fulfilled
with `isDeceased = true`; at the contract level, however, an authorized
caller can mark a donor Deceased regardless of fulfillment (see the
counterexample). -/
theorem C3_theorem (sys : SysState) (acct rid da d : Nat) (dec : Bool)
    (cid : String) (ts : Nat)
    (hnot : (sys.donor.donors d).status ≠ DonorStatus.Deceased) :
    ((processRequest sys acct rid da dec cid ts).donor.donors d).status = DonorStatus.Deceased →
      dec = true ∧
      ((processRequest sys acct rid da dec cid ts).oracle.requests rid).fulfilled = true ∧
      ((processRequest sys acct rid da dec cid ts).oracle.requests rid).isDeceased = true := by
  intro hdec
  unfold processRequest at hdec ⊢
  rcases hful : fulfillDeathVerification sys.oracle acct rid dec cid ts with e | o'
  · rw [hful] at hdec
    exact absurd hdec hnot
  · rw [hful] at hdec
    obtain ⟨hauth, hex, hfulf, ho'⟩ := fulfillDeathVerification_ok hful
    cases dec with
    | false => exact absurd hdec hnot
    | true =>
        rcases hcd : confirmDeath sys.donor acct da rid cid ts with e2 | d'
        · rw [hcd] at hdec
          exact absurd hdec hnot
        · rw [hcd] at hdec
          refine ⟨rfl, ?_, ?_⟩
          · rw [ho']
            simp
          · rw [ho']
            simp

/-- Witness for C3: `processRequest` on the concrete state `sysEx3`
with a deceased verdict for request 1 of donor 5. -/
theorem C3_theorem_witness :
    true = true ∧
    ((processRequest sysEx3 1 1 5 true "QmDC" 12).oracle.requests 1).fulfilled = true ∧
    ((processRequest sysEx3 1 1 5 true "QmDC" 12).oracle.requests 1).isDeceased = true :=
  C3_theorem sysEx3 1 1 5 5 true "QmDC" 12 (by decide) (by decide)

/-- C5: `checkBloodCompatibility` implements the ABO/Rh table: `O-` is
a universal donor, `AB+` a universal recipient, and on the eight blood
types the function returns true exactly when the pair is an exact match
or a pair listed in the standard ABO/Rh compatibility table. -/
theorem C5_theorem :
    (∀ r ∈ bloodTypes, checkBloodCompatibility "O-" r = true) ∧
    (∀ d ∈ bloodTypes, checkBloodCompatibility d "AB+" = true) ∧
    (∀ d ∈ bloodTypes, ∀ r ∈ bloodTypes,
      checkBloodCompatibility d r = (decide (d = r) || aboRhListed d r)) := by
  decide

/-- Witness for C5: sample pairs of each bullet. -/
theorem C5_theorem_witness :
    checkBloodCompatibility "O-" "A+" = true ∧
    checkBloodCompatibility "B-" "AB+" = true ∧
    checkBloodCompatibility "A+" "O+" =
      (decide (("A+" : String) = "O+") || aboRhListed "A+" "O+") :=
  ⟨C5_theorem.1 "A+" (by decide), C5_theorem.2.1 "B-" (by decide),
   C5_theorem.2.2 "A+" (by decide) "O+" (by decide)⟩

/-- C7: every `MatchScore` produced by `calculateMatchScore` has
`totalScore` equal to the sum of its five components, and `totalScore`
never exceeds 100. -/
theorem C7_theorem (bloodCompatible : Bool) (urgencyLevel waitedTime maxWait : Nat)
    (sameRegion qualityValidated : Bool) (minimumScoreThreshold : Nat) :
    (calculateMatchScore bloodCompatible urgencyLevel waitedTime maxWait
        sameRegion qualityValidated minimumScoreThreshold).totalScore =
      (calculateMatchScore bloodCompatible urgencyLevel waitedTime maxWait
        sameRegion qualityValidated minimumScoreThreshold).bloodCompatibility +
      (calculateMatchScore bloodCompatible urgencyLevel waitedTime maxWait
        sameRegion qualityValidated minimumScoreThreshold).urgencyScore +
      (calculateMatchScore bloodCompatible urgencyLevel waitedTime maxWait
        sameRegion qualityValidated minimumScoreThreshold).waitingTimeScore +
      (calculateMatchScore bloodCompatible urgencyLevel waitedTime maxWait
        sameRegion qualityValidated minimumScoreThreshold).geographicScore +
      (calculateMatchScore bloodCompatible urgencyLevel waitedTime maxWait
        sameRegion qualityValidated minimumScoreThreshold).medicalScore ∧
    (calculateMatchScore bloodCompatible urgencyLevel waitedTime maxWait
        sameRegion qualityValidated minimumScoreThreshold).totalScore ≤ 100 := by
  simp only [calculateMatchScore]
  constructor
  · apply min_eq_left
    have h1 : (if bloodCompatible then 30 else 0) ≤ 30 := by split <;> omega
    have h2 : min urgencyLevel 10 * 25 / 10 ≤ 25 := by
      have := Nat.min_le_right urgencyLevel 10
      omega
    have h3 : min (waitedTime * 20 / max maxWait 1) 20 ≤ 20 := Nat.min_le_right _ _
    have h4 : (if sameRegion then 15 else 0) ≤ 15 := by split <;> omega
    have h5 : (if qualityValidated then 10 else 5) ≤ 10 := by split <;> omega
    omega
  · exact Nat.min_le_right _ _
